import Mathlib

/-!
Verification of the Morpho protocol integration client
(`getVaultList` in src/projects/morpho/src/functions/getVaultList.ts and
`deposit` in the deposit module).

The two operations are shallowly embedded: the HTTP/chain environment is
passed in as an explicit function (`post` for the GraphQL query, `submit`
for the contract call), JavaScript `undefined`/optional fields become
`Option`, thrown exceptions become `Except String`, and arbitrary-precision
integers (ethers `BigNumber`) become `Int`.  JavaScript truthiness of the
values flowing through the two `||` fallbacks in the source is modelled
explicitly.
-/

namespace Morpho

/- ========================================================================
   Data model for getVaultList.ts
   ======================================================================== -/

/-- `interface GraphQLError` of getVaultList.ts. -/
structure GraphQLError where
  message : String
  deriving DecidableEq, Repr

/-- `interface VaultAsset` of getVaultList.ts.  Numeric JSON fields are
carried as `Int`; the client performs no arithmetic on them. -/
structure VaultAsset where
  address : String
  name : String
  symbol : String
  decimals : Int
  deriving DecidableEq, Repr

/-- `interface DailyApy` of getVaultList.ts. -/
structure DailyApy where
  apy : Int
  deriving DecidableEq, Repr

/-- `interface VaultLiquidity` of getVaultList.ts. -/
structure VaultLiquidity where
  underlying : Int
  usd : Int
  deriving DecidableEq, Repr

/-- `interface VaultChain` of getVaultList.ts. -/
structure VaultChain where
  id : Int
  network : String
  currency : String
  deriving DecidableEq, Repr

/-- `{ level: string }` entries of the `warnings` field. -/
structure VaultWarning where
  level : String
  deriving DecidableEq, Repr

/-- `interface VaultItem` of getVaultList.ts. -/
structure VaultItem where
  address : String
  name : String
  symbol : String
  whitelisted : Bool
  asset : VaultAsset
  dailyApys : List DailyApy
  warnings : List VaultWarning
  liquidity : VaultLiquidity
  chain : VaultChain
  deriving DecidableEq, Repr

/-- The `vaults: { items: VaultItem[] }` wrapper inside the response data. -/
structure VaultItems where
  items : List VaultItem
  deriving DecidableEq, Repr

/-- `interface VaultResponseData` of getVaultList.ts: the `data` portion of
the GraphQL response. -/
structure VaultResponseData where
  vaults : VaultItems
  deriving DecidableEq, Repr

/-- `interface GraphQLResponse<T>` of getVaultList.ts, instantiated at
`VaultResponseData`: both `data` and `errors` are optional fields. -/
structure GraphQLResponse where
  data : Option VaultResponseData
  errors : Option (List GraphQLError)
  deriving DecidableEq, Repr

/- ========================================================================
   getVaultList (src/projects/morpho/src/functions/getVaultList.ts,
   lines 166-192)
   ======================================================================== -/

/-- Lowercase hexadecimal digit, as used by `JSON.stringify` in `\uXXXX`
escapes. -/
def hexDigit (n : Nat) : Char :=
  if n < 10 then Char.ofNat (48 + n) else Char.ofNat (87 + n)

/-- Four lowercase hexadecimal digits of a code point below 0x10000. -/
def hex4 (n : Nat) : String :=
  String.mk [hexDigit (n / 4096 % 16), hexDigit (n / 256 % 16),
    hexDigit (n / 16 % 16), hexDigit (n % 16)]

/-- The escaping `JSON.stringify` applies to one character of a string
value (ECMA-262 QuoteJSONString): quote and backslash get a backslash
escape, the named control characters get their short escapes, the
remaining control characters get `\uXXXX`, and every other character is
copied as-is.  (Lone surrogates cannot occur in a Lean `Char`.) -/
def jsonEscapeChar (c : Char) : String :=
  if c = '"' then "\\\""
  else if c = '\\' then "\\\\"
  else if c = Char.ofNat 8 then "\\b"
  else if c = Char.ofNat 9 then "\\t"
  else if c = Char.ofNat 10 then "\\n"
  else if c = Char.ofNat 12 then "\\f"
  else if c = Char.ofNat 13 then "\\r"
  else if c.toNat < 32 then "\\u" ++ hex4 c.toNat
  else String.singleton c

/-- The body `JSON.stringify` produces between the surrounding quotes of a
serialized string value: each character escaped as above. -/
def jsonEscapeString (s : String) : String :=
  String.join (s.data.map jsonEscapeChar)

/-- JSON serialization of one GraphQL error record, as produced by
`JSON.stringify` on a `{ message: string }` object: the message value is
quoted with its characters escaped. -/
def stringifyError (e : GraphQLError) : String :=
  "\x7b\"message\":\"" ++ jsonEscapeString e.message ++ "\"\x7d"

/-- JSON serialization of the comma-separated element list of an error
array, as inside `JSON.stringify(response.data.errors)`. -/
def stringifyErrorList : List GraphQLError → String
  | [] => ""
  | [e] => stringifyError e
  | e :: rest => stringifyError e ++ "," ++ stringifyErrorList rest

/-- `JSON.stringify(response.data.errors)` on the (present) errors array. -/
def stringifyErrors (es : List GraphQLError) : String :=
  "[" ++ stringifyErrorList es ++ "]"

/-- The guard `response.data.errors && response.data.errors.length > 0`
(line 178): true exactly when the `errors` field is present and non-empty. -/
def hasNonEmptyErrors (resp : GraphQLResponse) : Bool :=
  match resp.errors with
  | some es => !es.isEmpty
  | none => false

/-- `getVaultList(first, skip)` (lines 166-192).  The HTTP layer is the
explicit argument `post`: `post first skip` is the outcome of
`axios.post(GRAPHQL_URL, {query, variables: {first, skip}}, ...)`, either a
thrown transport error or a decoded response body.  The `try` block maps to
the inner `match`; the `catch` (lines 189-191) wraps any error from the
block with the `Failed to fetch vault list: ` prefix. -/
def getVaultList (first skip : Int)
    (post : Int → Int → Except String GraphQLResponse) :
    Except String (List VaultItem) :=
  match
    (match post first skip with
     | Except.error e => Except.error e
     | Except.ok resp =>
       if hasNonEmptyErrors resp then
         Except.error ("GraphQL errors: " ++
           stringifyErrors (resp.errors.getD []))
       else
         match resp.data with
         | none => Except.error "No data returned from the GraphQL API"
         | some d => Except.ok d.vaults.items)
  with
  | Except.error e => Except.error ("Failed to fetch vault list: " ++ e)
  | Except.ok items => Except.ok items

/- ========================================================================
   Data model for the deposit module (src/unnamed/part_002)
   ======================================================================== -/

/-- A JavaScript value that can appear in the untyped `args.shares` slot of
an emitted event.  `bigNum n` is an ethers `BigNumber` object (an object is
always truthy, even when it encodes zero); `num n` is a primitive number
(falsy exactly when it is `0`). -/
inductive JsValue where
  | bigNum (n : Int)
  | num (n : Int)
  deriving DecidableEq, Repr

/-- JavaScript truthiness of a `JsValue`. -/
def JsValue.truthy : JsValue → Bool
  | .bigNum _ => true
  | .num n => n ≠ 0

/-- `interface MarketParamsInput` of the deposit module.  `lltv` is an
ethers `BigNumber` (wad-scaled), carried as `Int`; the `id` field is an
opaque string. -/
structure MarketParamsInput where
  loanToken : String
  collateralToken : String
  oracle : String
  irm : String
  lltv : Int
  id : String
  deriving DecidableEq, Repr

/-- `interface DepositOptions` of the deposit module.  `onBehalf?` is the
optional (possibly absent) address string. -/
structure DepositOptions where
  marketParams : MarketParamsInput
  depositAmount : Int
  onBehalf : Option String
  deriving DecidableEq, Repr

/-- `interface DepositResult`.  `assets` is the `BigNumber` deposit amount;
`shares` keeps the untyped value read back from the receipt (or the
submitted `BigNumber` zero). -/
structure DepositResult where
  assets : Int
  shares : JsValue
  deriving DecidableEq, Repr

/-- `args` of an emitted event: the `shares` member may be absent. -/
structure EventArgs where
  shares : Option JsValue
  deriving DecidableEq, Repr

/-- One entry of a receipt's `events` array; its `args` may be absent. -/
structure ReceiptEvent where
  args : Option EventArgs
  deriving DecidableEq, Repr

/-- An ethers `ContractReceipt`: the `events` array itself is optional. -/
structure Receipt where
  events : Option (List ReceiptEvent)
  deriving DecidableEq, Repr

/-- An ethers `ContractTransaction` handle: `wait` is its (already
determined) confirmation outcome — a thrown error or a receipt. -/
structure TxResponse where
  wait : Except String Receipt
  deriving Repr

/-- The signing capability: `getAddress` is the (asynchronous, fallible)
get-own-address operation, modelled by its outcome. -/
structure Signer where
  getAddress : Except String String
  deriving Repr

/-- The argument tuple of the `morphoContract.supply(marketParams, assets,
shares, onBehalf, data)` call, fields in the order they are passed
(lines 132-138). -/
structure SupplyCall where
  marketParams : MarketParamsInput
  assets : Int
  shares : JsValue
  onBehalf : String
  data : String
  deriving DecidableEq, Repr

/- ========================================================================
   deposit (src/unnamed/part_002, lines 107-154)
   ======================================================================== -/

/-- Line 119: `options.onBehalf || (await signer.getAddress())`.  The `||`
tests JavaScript truthiness of the optional string: an absent value and the
empty string are both falsy, so both fall through to `signer.getAddress()`.
This resolution happens before the `try` block, so a `getAddress` failure
propagates as-is. -/
def resolveOnBehalf (options : DepositOptions) (signer : Signer) :
    Except String String :=
  match options.onBehalf with
  | some s => if s.isEmpty then signer.getAddress else Except.ok s
  | none => signer.getAddress

/-- Line 146's optional chain `receipt.events?.[0]?.args?.shares`: `none`
when the events array is absent, empty, the first event has no `args`, or
the `args` has no `shares` member. -/
def extractShares (receipt : Receipt) : Option JsValue :=
  (((receipt.events.bind List.head?).bind ReceiptEvent.args).bind
    EventArgs.shares)

/-- The `||` fallback on line 146: `receipt.events?.[0]?.args?.shares ||
shares` — the extracted value if present and truthy, else the submitted
`shares` value. -/
def sharesOrFallback (v : Option JsValue) (fallback : JsValue) : JsValue :=
  match v with
  | some x => if x.truthy then x else fallback
  | none => fallback

/-- The `try` block of `deposit` (lines 129-147): submit the supply call,
await confirmation, and build the result; the `catch` (lines 148-153)
wraps any error from the block with `Deposit failed: ` plus the cause
message. -/
def depositTry (call : SupplyCall)
    (submit : SupplyCall → Except String TxResponse) :
    Except String DepositResult :=
  match submit call with
  | Except.error e => Except.error ("Deposit failed: " ++ e)
  | Except.ok tx =>
    match tx.wait with
    | Except.error e => Except.error ("Deposit failed: " ++ e)
    | Except.ok receipt =>
      Except.ok
        { assets := call.assets
          shares := sharesOrFallback (extractShares receipt) call.shares }

/-- The argument tuple passed to `morphoContract.supply` (lines 132-138),
assembled from the locals of lines 119-127: `assets = options.depositAmount`,
`shares = ethers.BigNumber.from(0)`, `data = "0x"` (empty byte string), and
the resolved `onBehalf` address. -/
def supplyCallOf (options : DepositOptions) (onBehalfAddress : String) :
    SupplyCall :=
  { marketParams := options.marketParams
    assets := options.depositAmount
    shares := JsValue.bigNum 0
    onBehalf := onBehalfAddress
    data := "0x" }

/-- `deposit(options, signer)` (lines 107-154).  The chain environment is
the explicit argument `submit`, the outcome of the `morphoContract.supply`
call on a given argument tuple.  Note the control flow of the source: the
`onBehalf` resolution (line 119) happens before the `try` block, so its
failure is not wrapped by the `catch`. -/
def deposit (options : DepositOptions) (signer : Signer)
    (submit : SupplyCall → Except String TxResponse) :
    Except String DepositResult :=
  match resolveOnBehalf options signer with
  | Except.error e => Except.error e
  | Except.ok onBehalfAddress =>
    depositTry (supplyCallOf options onBehalfAddress) submit

/- ========================================================================
   Theorems: getVaultList
   ======================================================================== -/

/-- After the guard on line 178 passes, the serialized element list of a
non-empty errors array starts with the serialization of the first error. -/
theorem stringifyErrorList_head (e : GraphQLError) (rest : List GraphQLError) :
    ∃ t, stringifyErrorList (e :: rest) = stringifyError e ++ t := by
  cases rest with
  | nil => exact ⟨"", by simp [stringifyErrorList]⟩
  | cons r t =>
    exact ⟨"," ++ stringifyErrorList (r :: t),
      by simp [stringifyErrorList, String.append_assoc]⟩

/-- Claim C2: for every response with HTTP status 200 (the post resolves)
whose body has no `data` field and no non-empty `errors` array,
`getVaultList` rejects with the "no data returned" error wrapped in the
vault-list fetch-failure prefix. -/
theorem getVaultList_missing_data_rejects (first skip : Int)
    (post : Int → Int → Except String GraphQLResponse)
    (resp : GraphQLResponse)
    (hpost : post first skip = Except.ok resp)
    (herr : hasNonEmptyErrors resp = false)
    (hdata : resp.data = none) :
    getVaultList first skip post =
      Except.error
        "Failed to fetch vault list: No data returned from the GraphQL API" := by
  simp only [getVaultList, hpost, herr, hdata]
  rfl

/-- Witness for C2: a concrete response with neither `data` nor `errors`. -/
theorem getVaultList_missing_data_rejects_witness :
    getVaultList 1000 0 (fun _ _ => Except.ok ⟨none, none⟩) =
      Except.error
        "Failed to fetch vault list: No data returned from the GraphQL API" :=
  getVaultList_missing_data_rejects 1000 0 _ ⟨none, none⟩ rfl rfl rfl

/-- Counterexample to claim C5 as stated: for the error message `a"b`,
`JSON.stringify` escapes the quote, so the thrown text carries the escaped
form and the raw message text appears nowhere in the rejection's message
as a contiguous substring. -/
theorem getVaultList_escaped_message_not_contained_cex :
    getVaultList 100 0 (fun _ _ => Except.ok ⟨none, some [⟨"a\"b"⟩]⟩) =
      Except.error
        "Failed to fetch vault list: GraphQL errors: [\x7b\"message\":\"a\\\"b\"\x7d]"
    ∧ ¬ ∃ s₁ s₂ : String,
        getVaultList 100 0 (fun _ _ => Except.ok ⟨none, some [⟨"a\"b"⟩]⟩) =
          Except.error (s₁ ++ "a\"b" ++ s₂) := by
  have h1 : getVaultList 100 0
      (fun _ _ => Except.ok ⟨none, some [⟨"a\"b"⟩]⟩) =
      Except.error
        "Failed to fetch vault list: GraphQL errors: [\x7b\"message\":\"a\\\"b\"\x7d]" := by
    rfl
  refine ⟨h1, ?_⟩
  rintro ⟨s₁, s₂, h⟩
  rw [h1] at h
  have hm :
      ("Failed to fetch vault list: GraphQL errors: [\x7b\"message\":\"a\\\"b\"\x7d]"
        : String) = s₁ ++ "a\"b" ++ s₂ :=
    (Except.error.injEq _ _).mp h
  have hd : List.IsInfix ("a\"b").data
      ("Failed to fetch vault list: GraphQL errors: [\x7b\"message\":\"a\\\"b\"\x7d]"
        : String).data := by
    refine ⟨s₁.data, s₂.data, ?_⟩
    rw [hm]
    simp [String.data_append]
  exact absurd hd (by decide)

/-- Claim C5 (amended): for every response whose body carries a non-empty
`errors` array — the HTTP layer having resolved, e.g. with status 200 —
the call rejects, and the rejection's message contains the JSON-escaped
form of the first error's `message` text; whenever that text needs no
JSON escaping (no quotes, backslashes or control characters, as in the
scenario "Something went wrong"), the raw message text itself is
contained. -/
theorem getVaultList_error_contains_first_message_escaped (first skip : Int)
    (post : Int → Int → Except String GraphQLResponse)
    (resp : GraphQLResponse) (e : GraphQLError) (rest : List GraphQLError)
    (hpost : post first skip = Except.ok resp)
    (herrs : resp.errors = some (e :: rest)) :
    (∃ s₁ s₂ : String,
      getVaultList first skip post =
        Except.error (s₁ ++ jsonEscapeString e.message ++ s₂))
    ∧ (jsonEscapeString e.message = e.message →
      ∃ s₁ s₂ : String,
        getVaultList first skip post =
          Except.error (s₁ ++ e.message ++ s₂)) := by
  have main : ∃ s₁ s₂ : String,
      getVaultList first skip post =
        Except.error (s₁ ++ jsonEscapeString e.message ++ s₂) := by
    obtain ⟨t, ht⟩ := stringifyErrorList_head e rest
    refine ⟨"Failed to fetch vault list: " ++ "GraphQL errors: " ++ "[" ++
        "\x7b\"message\":\"", "\"\x7d" ++ t ++ "]", ?_⟩
    have hne : hasNonEmptyErrors resp = true := by
      simp [hasNonEmptyErrors, herrs]
    simp only [getVaultList, hpost, hne, herrs, if_true, Option.getD_some,
      stringifyErrors, ht, stringifyError]
    simp only [← String.append_assoc]
  exact ⟨main, fun hesc => hesc ▸ main⟩

/-- Witness for the amended C5: the response of the repository's own test
"should throw error on GraphQL error", whose message needs no escaping. -/
theorem getVaultList_error_contains_first_message_escaped_witness :
    ∃ s₁ s₂ : String,
      getVaultList 100 0
          (fun _ _ => Except.ok ⟨none, some [⟨"Something went wrong"⟩]⟩) =
        Except.error (s₁ ++ "Something went wrong" ++ s₂) :=
  (getVaultList_error_contains_first_message_escaped 100 0 _
    ⟨none, some [⟨"Something went wrong"⟩]⟩ ⟨"Something went wrong"⟩ []
    rfl rfl).2 (by decide)

/-- Claim C6: for all `(first, skip)` pairs, a successful response (no
non-empty errors array) whose `data.vaults.items` holds a list of vault
records yields exactly that list: same length, same order, every field
verbatim (the conclusion is equality of the returned list with the
response's list). -/
theorem getVaultList_returns_items_verbatim (first skip : Int)
    (post : Int → Int → Except String GraphQLResponse)
    (resp : GraphQLResponse) (d : VaultResponseData)
    (hpost : post first skip = Except.ok resp)
    (herr : hasNonEmptyErrors resp = false)
    (hdata : resp.data = some d) :
    getVaultList first skip post = Except.ok d.vaults.items := by
  simp only [getVaultList, hpost, herr, hdata]
  simp

/-- Witness for C6: a one-item response (the sample of the repository's
test "should successfully fetch vaults") is returned verbatim. -/
theorem getVaultList_returns_items_verbatim_witness :
    getVaultList 100 0
        (fun _ _ => Except.ok
          ⟨some ⟨⟨[⟨"0xVaultAddress1", "Vault One", "VLT1", true,
            ⟨"0xAssetAddress1", "Asset One", "AST1", 18⟩,
            [⟨123⟩], [⟨"low"⟩], ⟨100, 1000⟩,
            ⟨1, "Ethereum", "ETH"⟩⟩]⟩⟩, none⟩) =
      Except.ok [⟨"0xVaultAddress1", "Vault One", "VLT1", true,
        ⟨"0xAssetAddress1", "Asset One", "AST1", 18⟩,
        [⟨123⟩], [⟨"low"⟩], ⟨100, 1000⟩,
        ⟨1, "Ethereum", "ETH"⟩⟩] :=
  getVaultList_returns_items_verbatim 100 0 _
    ⟨some ⟨⟨[⟨"0xVaultAddress1", "Vault One", "VLT1", true,
      ⟨"0xAssetAddress1", "Asset One", "AST1", 18⟩,
      [⟨123⟩], [⟨"low"⟩], ⟨100, 1000⟩,
      ⟨1, "Ethereum", "ETH"⟩⟩]⟩⟩, none⟩
    ⟨⟨[⟨"0xVaultAddress1", "Vault One", "VLT1", true,
      ⟨"0xAssetAddress1", "Asset One", "AST1", 18⟩,
      [⟨123⟩], [⟨"low"⟩], ⟨100, 1000⟩,
      ⟨1, "Ethereum", "ETH"⟩⟩]⟩⟩
    rfl rfl rfl

/-- Claim C7: `getVaultList` is a pure read — two calls with identical
`(first, skip)` arguments against the same backing dataset (the same
`post` environment) return identical sequences. -/
theorem getVaultList_pure_read (first skip : Int)
    (post : Int → Int → Except String GraphQLResponse)
    (items₁ items₂ : List VaultItem)
    (h₁ : getVaultList first skip post = Except.ok items₁)
    (h₂ : getVaultList first skip post = Except.ok items₂) :
    items₁ = items₂ := by
  rw [h₁] at h₂
  exact (Except.ok.injEq _ _).mp h₂

/-- Witness for C7: two evaluations at a concrete dataset agree. -/
theorem getVaultList_pure_read_witness :
    ([] : List VaultItem) = [] :=
  getVaultList_pure_read 1000 0 (fun _ _ => Except.ok ⟨some ⟨⟨[]⟩⟩, none⟩)
    [] [] rfl rfl

/-- Claim C8: an `errors` array that is present but empty is treated like
an absent one: with valid `data.vaults.items` the call succeeds and
returns the items. -/
theorem getVaultList_empty_errors_succeeds (first skip : Int)
    (post : Int → Int → Except String GraphQLResponse)
    (resp : GraphQLResponse) (d : VaultResponseData)
    (hpost : post first skip = Except.ok resp)
    (herrs : resp.errors = some [])
    (hdata : resp.data = some d) :
    getVaultList first skip post = Except.ok d.vaults.items := by
  have herr : hasNonEmptyErrors resp = false := by
    simp [hasNonEmptyErrors, herrs]
  simp only [getVaultList, hpost, herr, hdata]
  simp

/-- Witness for C8: a concrete response with `errors: []` succeeds. -/
theorem getVaultList_empty_errors_succeeds_witness :
    getVaultList 1000 0
        (fun _ _ => Except.ok ⟨some ⟨⟨[]⟩⟩, some []⟩) =
      Except.ok [] :=
  getVaultList_empty_errors_succeeds 1000 0 _ ⟨some ⟨⟨[]⟩⟩, some []⟩ ⟨⟨[]⟩⟩
    rfl rfl rfl

/- ========================================================================
   Theorems: deposit
   ======================================================================== -/

/-- Counterexample to claim C1 as stated: with `onBehalf` unset and a
signing capability whose get-own-address operation fails with "boom", the
call rejects with exactly "boom" — the address-resolution failure is not
wrapped with the "Deposit failed: " prefix, because line 119 of the source
runs before the `try` block of lines 129-153. -/
theorem deposit_getAddress_error_unwrapped_cex :
    deposit ⟨⟨"0xL", "0xC", "0xO", "0xI", 900000000000000000, "0xId"⟩,
        50000000, none⟩
      ⟨Except.error "boom"⟩ (fun _ => Except.error "unused") =
      Except.error "boom"
    ∧ ∀ s : String, ("Deposit failed: " ++ s) ≠ "boom" := by
  constructor
  · rfl
  · intro s h
    have h2 := congrArg String.length h
    rw [String.length_append] at h2
    have e1 : ("Deposit failed: ").length = 16 := rfl
    have e2 : ("boom").length = 4 := rfl
    omega

/-- Claim C1 (amended): in deposit, an exception raised during
contract-call submission or during the confirmation wait is re-raised as
"Deposit failed: <cause>"; a failure of address resolution (the signer's
get-own-address operation) propagates unwrapped, since it occurs before
the try block. -/
theorem deposit_error_wrapping (options : DepositOptions) (signer : Signer)
    (submit : SupplyCall → Except String TxResponse)
    (addr e : String) (tx : TxResponse) :
    (resolveOnBehalf options signer = Except.error e →
      deposit options signer submit = Except.error e)
    ∧ (resolveOnBehalf options signer = Except.ok addr →
      submit (supplyCallOf options addr) = Except.error e →
      deposit options signer submit =
        Except.error ("Deposit failed: " ++ e))
    ∧ (resolveOnBehalf options signer = Except.ok addr →
      submit (supplyCallOf options addr) = Except.ok tx →
      tx.wait = Except.error e →
      deposit options signer submit =
        Except.error ("Deposit failed: " ++ e)) := by
  refine ⟨?_, ?_, ?_⟩
  · intro h
    simp [deposit, h]
  · intro h1 h2
    simp [deposit, h1, depositTry, h2]
  · intro h1 h2 h3
    simp [deposit, h1, depositTry, h2, h3]

/-- Witness for the amended C1: a concrete failing submission and a
concrete failing confirmation wait are both wrapped, and a concrete
resolution failure passes through. -/
theorem deposit_error_wrapping_witness :
    deposit ⟨⟨"0xL", "0xC", "0xO", "0xI", 9, "0xId"⟩, 50000000, none⟩
        ⟨Except.error "resolve-boom"⟩ (fun _ => Except.error "u") =
      Except.error "resolve-boom"
    ∧ deposit ⟨⟨"0xL", "0xC", "0xO", "0xI", 9, "0xId"⟩, 50000000,
          some "0xMe"⟩
        ⟨Except.ok "0xMe"⟩ (fun _ => Except.error "submit-boom") =
      Except.error "Deposit failed: submit-boom"
    ∧ deposit ⟨⟨"0xL", "0xC", "0xO", "0xI", 9, "0xId"⟩, 50000000,
          some "0xMe"⟩
        ⟨Except.ok "0xMe"⟩
        (fun _ => Except.ok ⟨Except.error "wait-boom"⟩) =
      Except.error "Deposit failed: wait-boom" :=
  ⟨(deposit_error_wrapping _ _ _ "x" "resolve-boom"
      ⟨Except.error "u"⟩).1 rfl,
   (deposit_error_wrapping _ _ _ "0xMe" "submit-boom"
      ⟨Except.error "u"⟩).2.1 rfl rfl,
   (deposit_error_wrapping _ _ _ "0xMe" "wait-boom"
      ⟨Except.error "wait-boom"⟩).2.2 rfl rfl rfl⟩

/-- Claim C3: on a successfully confirmed deposit, if the first emitted
event carries a big-integer `args.shares` value X, the result is
`{assets := depositAmount, shares := X}`; if there is no first event or it
carries no shares argument, the shares component is the submitted literal
zero.  In both cases the assets component is the submitted depositAmount. -/
theorem deposit_success_shares_and_assets (options : DepositOptions)
    (signer : Signer) (submit : SupplyCall → Except String TxResponse)
    (addr : String) (tx : TxResponse) (receipt : Receipt)
    (hres : resolveOnBehalf options signer = Except.ok addr)
    (hsub : submit (supplyCallOf options addr) = Except.ok tx)
    (hwait : tx.wait = Except.ok receipt) :
    (∀ X : Int, extractShares receipt = some (JsValue.bigNum X) →
      deposit options signer submit =
        Except.ok ⟨options.depositAmount, JsValue.bigNum X⟩)
    ∧ (extractShares receipt = none →
      deposit options signer submit =
        Except.ok ⟨options.depositAmount, JsValue.bigNum 0⟩) := by
  simp only [supplyCallOf] at hsub
  constructor
  · intro X hX
    simp [deposit, hres, depositTry, supplyCallOf, hsub, hwait, hX,
      sharesOrFallback, JsValue.truthy]
  · intro hnone
    simp [deposit, hres, depositTry, supplyCallOf, hsub, hwait, hnone,
      sharesOrFallback]

/-- Witness for C3: a confirmation whose first event carries
`args.shares = 777` yields shares 777; a confirmation with no events array
yields the submitted zero; assets are the submitted 50_000000 in both. -/
theorem deposit_success_shares_and_assets_witness :
    deposit ⟨⟨"0xL", "0xC", "0xO", "0xI", 9, "0xId"⟩, 50000000,
        some "0xMe"⟩
      ⟨Except.ok "0xMe"⟩
      (fun _ => Except.ok
        ⟨Except.ok ⟨some [⟨some ⟨some (JsValue.bigNum 777)⟩⟩]⟩⟩) =
      Except.ok ⟨50000000, JsValue.bigNum 777⟩
    ∧ deposit ⟨⟨"0xL", "0xC", "0xO", "0xI", 9, "0xId"⟩, 50000000,
        some "0xMe"⟩
      ⟨Except.ok "0xMe"⟩ (fun _ => Except.ok ⟨Except.ok ⟨none⟩⟩) =
      Except.ok ⟨50000000, JsValue.bigNum 0⟩ :=
  ⟨(deposit_success_shares_and_assets
      ⟨⟨"0xL", "0xC", "0xO", "0xI", 9, "0xId"⟩, 50000000, some "0xMe"⟩
      ⟨Except.ok "0xMe"⟩
      (fun _ => Except.ok
        ⟨Except.ok ⟨some [⟨some ⟨some (JsValue.bigNum 777)⟩⟩]⟩⟩)
      "0xMe"
      ⟨Except.ok ⟨some [⟨some ⟨some (JsValue.bigNum 777)⟩⟩]⟩⟩
      ⟨some [⟨some ⟨some (JsValue.bigNum 777)⟩⟩]⟩ rfl rfl rfl).1 777 rfl,
   (deposit_success_shares_and_assets
      ⟨⟨"0xL", "0xC", "0xO", "0xI", 9, "0xId"⟩, 50000000, some "0xMe"⟩
      ⟨Except.ok "0xMe"⟩ (fun _ => Except.ok ⟨Except.ok ⟨none⟩⟩) "0xMe"
      ⟨Except.ok ⟨none⟩⟩ ⟨none⟩ rfl rfl rfl).2 rfl⟩

/-- Claim C4: with `onBehalf` unset, the contract call submitted by
deposit is the supply entry point on the tuple `(marketParams, assets,
shares, onBehalf, data)` — the field order of `SupplyCall` — with assets
equal to depositAmount, shares equal to 0, onBehalf equal to the address
resolved from the signing capability, and data the empty byte string
(hex literal "0x"). -/
theorem deposit_supply_call_params (options : DepositOptions)
    (signer : Signer) (submit : SupplyCall → Except String TxResponse)
    (addr : String)
    (hnone : options.onBehalf = none)
    (haddr : signer.getAddress = Except.ok addr) :
    ∃ call : SupplyCall,
      deposit options signer submit = depositTry call submit
      ∧ call.marketParams = options.marketParams
      ∧ call.assets = options.depositAmount
      ∧ call.shares = JsValue.bigNum 0
      ∧ call.onBehalf = addr
      ∧ call.data = "0x" := by
  refine ⟨supplyCallOf options addr, ?_, rfl, rfl, rfl, rfl, rfl⟩
  simp [deposit, resolveOnBehalf, hnone, haddr]

/-- Witness for C4: the spec's example `depositAmount = 50_000000` with
`onBehalf` unset submits `(marketParams, 50_000000, 0, "0xMe", "0x")`. -/
theorem deposit_supply_call_params_witness :
    ∃ call : SupplyCall,
      deposit ⟨⟨"0xL", "0xC", "0xO", "0xI", 9, "0xId"⟩, 50000000, none⟩
          ⟨Except.ok "0xMe"⟩ (fun _ => Except.error "u") =
        depositTry call (fun _ => Except.error "u")
      ∧ call.marketParams = ⟨"0xL", "0xC", "0xO", "0xI", 9, "0xId"⟩
      ∧ call.assets = 50000000
      ∧ call.shares = JsValue.bigNum 0
      ∧ call.onBehalf = "0xMe"
      ∧ call.data = "0x" :=
  deposit_supply_call_params _ _ _ "0xMe" rfl rfl

/-- Claim C9: the `onBehalf` resolution on line 119 is a truthiness test:
a supplied empty string falls back to the signer's own resolved address,
and a supplied non-empty string is used as-is, with the signer's
get-own-address operation never consulted (the outcome is identical for
every signer, failing ones included). -/
theorem deposit_onBehalf_truthiness (options : DepositOptions)
    (signer : Signer) (submit : SupplyCall → Except String TxResponse)
    (addr s : String) :
    (options.onBehalf = some "" → signer.getAddress = Except.ok addr →
      deposit options signer submit =
        depositTry (supplyCallOf options addr) submit)
    ∧ (options.onBehalf = some s → s ≠ "" →
      deposit options signer submit =
        depositTry (supplyCallOf options s) submit
      ∧ ∀ signer2 : Signer,
          deposit options signer2 submit =
            deposit options signer submit) := by
  constructor
  · intro h1 h2
    have hemp : ("" : String).isEmpty = true := rfl
    simp [deposit, resolveOnBehalf, h1, h2, hemp]
  · intro h1 h2
    have hres : ∀ sig : Signer,
        resolveOnBehalf options sig = Except.ok s := by
      intro sig
      have hne : s.isEmpty = false := by
        cases he : s.isEmpty with
        | false => rfl
        | true => exact absurd ((String.isEmpty_iff s).mp he) h2
      simp [resolveOnBehalf, h1, hne]
    constructor
    · simp [deposit, hres]
    · intro signer2
      simp [deposit, hres]

/-- Witness for C9: an empty-string `onBehalf` resolves to the signer's
address; a non-empty one is used as-is regardless of the signer. -/
theorem deposit_onBehalf_truthiness_witness :
    (deposit ⟨⟨"0xL", "0xC", "0xO", "0xI", 9, "0xId"⟩, 50000000, some ""⟩
        ⟨Except.ok "0xMe"⟩ (fun _ => Except.error "u") =
      depositTry
        (supplyCallOf
          ⟨⟨"0xL", "0xC", "0xO", "0xI", 9, "0xId"⟩, 50000000, some ""⟩
          "0xMe")
        (fun _ => Except.error "u"))
    ∧ (deposit ⟨⟨"0xL", "0xC", "0xO", "0xI", 9, "0xId"⟩, 50000000,
          some "0xOther"⟩
        ⟨Except.ok "0xMe"⟩ (fun _ => Except.error "u") =
      depositTry
        (supplyCallOf
          ⟨⟨"0xL", "0xC", "0xO", "0xI", 9, "0xId"⟩, 50000000,
            some "0xOther"⟩
          "0xOther")
        (fun _ => Except.error "u")
      ∧ ∀ signer2 : Signer,
          deposit ⟨⟨"0xL", "0xC", "0xO", "0xI", 9, "0xId"⟩, 50000000,
              some "0xOther"⟩
            signer2 (fun _ => Except.error "u") =
          deposit ⟨⟨"0xL", "0xC", "0xO", "0xI", 9, "0xId"⟩, 50000000,
              some "0xOther"⟩
            ⟨Except.ok "0xMe"⟩ (fun _ => Except.error "u")) :=
  ⟨(deposit_onBehalf_truthiness _ ⟨Except.ok "0xMe"⟩ _ "0xMe" "x").1
      rfl rfl,
   (deposit_onBehalf_truthiness _ ⟨Except.ok "0xMe"⟩ _ "0xMe"
      "0xOther").2 rfl (by decide)⟩

/-- Claim C10: the shares extraction on line 146 uses a falsiness
fallback: a first emitted event whose `args.shares` is a falsy value (such
as the primitive number 0, unlike a big-integer zero object) yields the
submitted zero, not the event's own value. -/
theorem deposit_falsy_shares_fallback (options : DepositOptions)
    (signer : Signer) (submit : SupplyCall → Except String TxResponse)
    (addr : String) (tx : TxResponse) (receipt : Receipt) (v : JsValue)
    (hres : resolveOnBehalf options signer = Except.ok addr)
    (hsub : submit (supplyCallOf options addr) = Except.ok tx)
    (hwait : tx.wait = Except.ok receipt)
    (hv : extractShares receipt = some v)
    (hfalsy : v.truthy = false) :
    deposit options signer submit =
      Except.ok ⟨options.depositAmount, JsValue.bigNum 0⟩
    ∧ JsValue.bigNum 0 ≠ v := by
  constructor
  · simp only [supplyCallOf] at hsub
    simp [deposit, hres, depositTry, supplyCallOf, hsub, hwait, hv,
      sharesOrFallback, hfalsy]
  · intro he
    rw [← he] at hfalsy
    simp [JsValue.truthy] at hfalsy

/-- Witness for C10: a first event carrying the primitive number 0 as
`args.shares` yields the submitted big-integer zero, a different value. -/
theorem deposit_falsy_shares_fallback_witness :
    deposit ⟨⟨"0xL", "0xC", "0xO", "0xI", 9, "0xId"⟩, 50000000,
        some "0xMe"⟩
      ⟨Except.ok "0xMe"⟩
      (fun _ => Except.ok
        ⟨Except.ok ⟨some [⟨some ⟨some (JsValue.num 0)⟩⟩]⟩⟩) =
      Except.ok ⟨50000000, JsValue.bigNum 0⟩
    ∧ JsValue.bigNum 0 ≠ JsValue.num 0 :=
  deposit_falsy_shares_fallback _ _ _ "0xMe"
    ⟨Except.ok ⟨some [⟨some ⟨some (JsValue.num 0)⟩⟩]⟩⟩
    ⟨some [⟨some ⟨some (JsValue.num 0)⟩⟩]⟩ (JsValue.num 0)
    rfl rfl rfl rfl rfl

end Morpho
